import Mathlib

/-!
Verification of `download_stereo4d.py` (stereo4d_downloader).

The Python source is shallowly embedded below:
* `extract_video_id_from_url` — the Identifier Normalizer (pure string function),
* `download_video` / `attemptLoop` — the Item Fetcher retry state machine, with the
  external `yt-dlp` subprocess modelled as an oracle `runner : Nat → InvokeBehavior`
  giving the outcome of the n-th spawned process (exit code + captured output, or a
  raised exception),
* `read_downloaded_urls` — the Progress Ledger loader, with the filesystem modelled
  as `Option (List String)` (`none` = file does not exist, `some lines` = its lines
  without their terminators),
* `download_batch` — the Batch Scheduler (sequential `max_workers == 1` branch; the
  fetch outcome per URL is an oracle), recording ledger appends and the
  failure-file write,
* `run_driver_events` — the Run Driver loop of `batch_download_from_file`, emitting
  the ordered trace of chunk-processing and sleep events, with `random.randint(5, 60)`
  modelled as an oracle `rand : Nat → Nat` (per-batch drawn value).
-/

set_option maxRecDepth 10000

namespace Stereo4D

/-! ### Python string primitives over `List Char` -/

/-- Python `s.split(sep)` on character lists (`sep` nonempty, left-to-right,
non-overlapping).  The `fuel` argument is an upper bound on the number of steps;
`splitOnList` supplies `s.length`, which suffices because every step consumes at
least one character. -/
def splitOnListAux (sep : List Char) : Nat → List Char → List Char → List (List Char)
  | _, [], acc => [acc.reverse]
  | 0, s, acc => [acc.reverse ++ s]
  | fuel+1, c :: rest, acc =>
    if sep.isPrefixOf (c :: rest) then
      acc.reverse :: splitOnListAux sep fuel ((c :: rest).drop sep.length) []
    else
      splitOnListAux sep fuel rest (c :: acc)

/-- Python `s.split(sep)` for a nonempty separator. -/
def splitOnList (sep s : List Char) : List (List Char) :=
  splitOnListAux sep s.length s []

/-- Python `pat in s` (substring containment) on character lists. -/
def infixOf (pat : List Char) : List Char → Bool
  | [] => pat.isPrefixOf []
  | c :: rest => pat.isPrefixOf (c :: rest) || infixOf pat rest

/-- Python `pat in s` on strings. -/
def strIn (pat s : String) : Bool := infixOf pat.toList s.toList

/-- The Python whitespace characters stripped by `str.strip()`:
space, tab, newline, carriage return, vertical tab, form feed. -/
def pyWhitespace : List Char :=
  [' ', Char.ofNat 9, Char.ofNat 10, Char.ofNat 13, Char.ofNat 11, Char.ofNat 12]

def isPySpace (c : Char) : Bool := pyWhitespace.contains c

/-- Python `s.strip()` (default whitespace stripping on both ends). -/
def pyStrip (s : String) : String :=
  String.mk (((s.toList.dropWhile isPySpace).reverse.dropWhile isPySpace).reverse)

/-- Truthiness of an optional Python string argument (`None` and `""` are falsy). -/
def truthy : Option String → Bool
  | none => false
  | some s => !(s == "")

/-! ### Identifier Normalizer (`extract_video_id_from_url`, lines 24–31) -/

def longMarker : List Char := "youtube.com/watch?v=".toList

def shortMarker : List Char := "youtu.be/".toList

/-- `extract_video_id_from_url` of the source, on character lists:
`url.split('youtube.com/watch?v=')[1].split('&')[0]` when the long marker occurs,
`url.split('youtu.be/')[1].split('?')[0]` when the short marker occurs,
else the input unchanged. -/
def extract_video_id_from_url (url : List Char) : List Char :=
  if infixOf longMarker url then
    (splitOnList ['&'] ((splitOnList longMarker url).getD 1 [])).getD 0 []
  else if infixOf shortMarker url then
    (splitOnList ['?'] ((splitOnList shortMarker url).getD 1 [])).getD 0 []
  else url

/-- String-level wrapper of `extract_video_id_from_url`. -/
def extractVideoId (url : String) : String :=
  String.mk (extract_video_id_from_url url.toList)

/-! ### Item Fetcher (`download_video`, lines 33–152) -/

/-- The bot-verification challenge string searched for at line 82
(the apostrophe is built explicitly as `Char.ofNat 39`). -/
def botMarker : String :=
  "Sign in to confirm you" ++ String.singleton (Char.ofNat 39) ++ "re not a bot"

/-- The permanent-unavailability marker searched for at line 93. -/
def unavailMarker : String := "Video unavailable"

/-- Error kinds of the fetch outcome dictionary, keyed by which `"error"` string
the source stores; `errText` renders the exact Python message. -/
inductive ErrKind where
  | authRequired
  | unavailable
  | retriesExhausted (retry_count : Nat)
  | exception (msg : String)
deriving DecidableEq

/-- The `"error"` field text the source attaches to each error kind. -/
def errText : ErrKind → String
  | .authRequired => "Authentication required. Use --cookies-file or --cookies-from-browser"
  | .unavailable => "Video unavailable (removed or private)"
  | .retriesExhausted n => "Failed after " ++ toString n ++ " attempts"
  | .exception e => e

/-- The `"status"` of the dictionary returned by `download_video`, together with
the `"error"`/`"details"` payload of the error case (`details` is `none` when the
source omits the key, as in the exception branch at line 152). -/
inductive DlStatus where
  | success
  | already_exists
  | error (kind : ErrKind) (details : Option String)
deriving DecidableEq

/-- Outcome of one spawned `yt-dlp` process: normal completion with an exit code
and captured stdout/stderr, or a raised exception (e.g. `Popen` failing). -/
inductive InvokeBehavior where
  | ok (returncode : Int) (stdout stderr : String)
  | exc (msg : String)

/-- Format selector of an external invocation: the per-attempt primary command
(`-f 313`, lines 46–55) or the alternate fallback command
(`-f bestvideo[ext=webm]`, lines 104–112). -/
inductive InvFormat where
  | primary
  | fallback
deriving DecidableEq

/-- Observable result of a fetch: the returned dictionary (`none` models the
function falling off the end of the loop and returning Python `None`), the
ordered formats of the external invocations made, and how many backoff sleeps
were performed. -/
structure LoopOut where
  result : Option DlStatus
  formats : List InvFormat
  sleeps : Nat
deriving DecidableEq

/-- The retry loop of `download_video` (lines 44–152).  `runner n` is the outcome
of the `n`-th spawned process; `fuel` counts the remaining loop iterations and is
`retry_count - attempt` throughout (`attemptLoop` is entered with
`fuel = retry_count`, `attempt = 0`), so the `fuel = 0` base case is exactly the
`for` loop being exhausted. -/
def attemptLoop (cookies_file cookies_from_browser : Option String) (retry_count : Nat)
    (runner : Nat → InvokeBehavior) : Nat → Nat → Nat → LoopOut
  | 0, _, _ => ⟨none, [], 0⟩
  | fuel+1, attempt, inv =>
    match runner inv with
    | .exc e =>
      -- lines 145–152: exception caught; backoff-and-retry or final error
      if attempt < retry_count - 1 then
        let rest := attemptLoop cookies_file cookies_from_browser retry_count runner
          fuel (attempt+1) (inv+1)
        ⟨rest.result, .primary :: rest.formats, rest.sleeps + 1⟩
      else
        ⟨some (.error (.exception e) none), [.primary], 0⟩
    | .ok rc out err =>
      if rc ≠ 0 then
        -- line 82: bot-verification challenge, only fatal without credentials
        if (strIn botMarker err || strIn botMarker out)
            && !(truthy cookies_file || truthy cookies_from_browser) then
          ⟨some (.error .authRequired (some err)), [.primary], 0⟩
        -- line 93: permanent unavailability, never retried
        else if strIn unavailMarker out || strIn unavailMarker err then
          ⟨some (.error .unavailable (some (out ++ err))), [.primary], 0⟩
        -- line 103: alternate-format attempt interleaved at attempt index 1;
        -- it reassigns the captured stdout/stderr (line 124)
        else if attempt = 1 then
          match runner (inv+1) with
          | .exc e =>
            if attempt < retry_count - 1 then
              let rest := attemptLoop cookies_file cookies_from_browser retry_count runner
                fuel (attempt+1) (inv+2)
              ⟨rest.result, .primary :: .fallback :: rest.formats, rest.sleeps + 1⟩
            else
              ⟨some (.error (.exception e) none), [.primary, .fallback], 0⟩
          | .ok rc2 out2 err2 =>
            if rc2 = 0 then
              ⟨some .success, [.primary, .fallback], 0⟩
            else if attempt < retry_count - 1 then
              let rest := attemptLoop cookies_file cookies_from_browser retry_count runner
                fuel (attempt+1) (inv+2)
              ⟨rest.result, .primary :: .fallback :: rest.formats, rest.sleeps + 1⟩
            else
              ⟨some (.error (.retriesExhausted retry_count) (some (out2 ++ err2))),
                [.primary, .fallback], 0⟩
        -- lines 129–141: exponential backoff, or retries exhausted
        else if attempt < retry_count - 1 then
          let rest := attemptLoop cookies_file cookies_from_browser retry_count runner
            fuel (attempt+1) (inv+1)
          ⟨rest.result, .primary :: rest.formats, rest.sleeps + 1⟩
        else
          ⟨some (.error (.retriesExhausted retry_count) (some (out ++ err))), [.primary], 0⟩
      else
        -- line 143: successful invocation
        ⟨some .success, [.primary], 0⟩

/-- The fixed container extensions probed by the existence check (line 39). -/
def known_exts : List String := ["mp4", "mkv", "webm"]

/-- The existence short-circuit (lines 38–41): some `<video_id>.<ext>` is
already present among `files`, the contents of the output directory. -/
def existsAlready (files : List String) (video_id : String) : Bool :=
  known_exts.any fun ext => files.any fun f => decide (f = video_id ++ "." ++ ext)

/-- `download_video` (lines 33–152).  `files` models the set of file names
present in the output directory; `runner` models the spawned `yt-dlp`
processes in invocation order. -/
def download_video (url : String) (files : List String) (retry_count : Nat)
    (cookies_file cookies_from_browser : Option String)
    (runner : Nat → InvokeBehavior) : LoopOut :=
  let video_id := extractVideoId url
  if existsAlready files video_id then
    ⟨some .already_exists, [], 0⟩
  else
    attemptLoop cookies_file cookies_from_browser retry_count runner retry_count 0 0

/-! ### Progress Ledger loader (`read_downloaded_urls`, lines 16–22) -/

/-- `read_downloaded_urls` (lines 16–22).  The file is modelled as
`Option (List String)`: `none` when `os.path.exists` is false, otherwise the
list of the file's lines (without terminators).  The Python set
`set(line.strip() for line in f if line.strip())` is modelled as the resulting
list, used only up to membership. -/
def read_downloaded_urls : Option (List String) → List String
  | none => []
  | some lines => (lines.map pyStrip).filter fun l => decide (¬ l = "")

/-! ### Batch Scheduler (`download_batch`, lines 154–225) -/

/-- State written by one `download_batch` call: the references appended to the
ledger file (in processing order), and the failure-file write — `none` when the
chunk returned early at line 171 and the failure file was never opened,
`some recs` when it was overwritten (line 223) with exactly `recs`. -/
structure BatchOut where
  ledger_appends : List String
  failed : Option (List (String × String))
deriving DecidableEq

/-- `download_batch` (lines 154–225), sequential `max_workers == 1` branch; the
per-URL fetch outcome is the oracle `fetch` (the call at line 180 uses the
default `retry_count = 3`, so by `download_video` it always produces a tagged
status).  Successes and `already_exists` results are appended to the ledger
immediately; errors accumulate into the failure list written at line 223. -/
def download_batch (urls downloaded : List String)
    (fetch : String → DlStatus) : BatchOut :=
  let urls_to_download := urls.filter fun u => !(downloaded.contains u)
  if urls_to_download.isEmpty then
    ⟨[], none⟩
  else
    let res := urls_to_download.foldl
      (fun st url =>
        match fetch url with
        | .error k _ => (st.1, st.2 ++ [(url, errText k)])
        | _ => (st.1 ++ [url], st.2))
      (([], []) : List String × List (String × String))
    ⟨res.1, some res.2⟩

/-- Effect of one `download_batch` call on the failure file, given its previous
contents: untouched when no write happened, replaced when one did. -/
def applyFailureWrite (prev : Option (List (String × String))) (b : BatchOut) :
    Option (List (String × String)) :=
  match b.failed with
  | none => prev
  | some recs => some recs

/-! ### Run Driver (`batch_download_from_file`, lines 227–260) -/

/-- `total_batches` (line 246): `(len(urls_to_download) + batch_size - 1) // batch_size`. -/
def total_batches (n batch_size : Nat) : Nat := (n + batch_size - 1) / batch_size

/-- The slice `urls_to_download[start_idx:end_idx]` of batch `b`
(lines 248–250): `start_idx = b * batch_size`,
`end_idx = min ((b+1) * batch_size) (len urls)`. -/
def sliceChunk (batch_size : Nat) (l : List α) (b : Nat) : List α :=
  (l.drop (b * batch_size)).take (min ((b + 1) * batch_size) l.length - b * batch_size)

/-- The chunks processed by the driver loop, in order. -/
def driver_chunks (batch_size : Nat) (l : List α) : List (List α) :=
  (List.range (total_batches l.length batch_size)).map (sliceChunk batch_size l)

/-- Observable events of the driver loop (lines 247–260). -/
inductive RunEvent where
  | processChunk (chunk : List String)
  | sleep (seconds : Nat)
deriving DecidableEq

/-- The ordered event trace of the loop of `batch_download_from_file`
(lines 247–260) on the already-filtered work list `l`: for every batch index, a
`processChunk` of its slice (the `download_batch` call at line 253) followed by a
`sleep` of `random.randint(5, 60)` seconds (lines 258–260), modelled by the
oracle `rand b` for batch `b`. -/
def run_driver_events (l : List String) (batch_size : Nat) (rand : Nat → Nat) :
    List RunEvent :=
  ((List.range (total_batches l.length batch_size)).map fun b =>
    [RunEvent.processChunk (sliceChunk batch_size l b), RunEvent.sleep (rand b)]).flatten

/-- The ledger-filter step of `batch_download_from_file` (line 242):
`remaining = [url for url in all_urls if url not in downloaded_urls]`. -/
def remainingUrls (all_urls downloaded : List String) : List String :=
  all_urls.filter fun u => !(downloaded.contains u)

/-! ### Spec-side definitions for refinement -/

/-- Modelled from the spec (section 4.5): "partitions `remaining` into fixed-size
chunks in original list order" — the canonical partition of a list into
consecutive chunks of `batch_size` elements (the last chunk possibly shorter). -/
def specChunks (batch_size : Nat) (l : List α) : List (List α) :=
  if h : batch_size = 0 ∨ l.isEmpty then []
  else l.take batch_size :: specChunks batch_size (l.drop batch_size)
termination_by l.length
decreasing_by
  rw [not_or] at h
  simp only [List.length_drop]
  rcases l with _ | ⟨a, t⟩
  · simp at h
  · simp only [List.length_cons]
    have := h.1
    omega

/-- Projection selecting the chunk-processing events. -/
def chunkEvent : RunEvent → Option (List String)
  | .processChunk c => some c
  | _ => none

/-- Projection selecting the sleep events. -/
def sleepEvent : RunEvent → Option Nat
  | .sleep s => some s
  | _ => none

end Stereo4D

namespace Stereo4D

/-! ### Quick sanity examples (normalizer) -/

example : extractVideoId ("https://www.youtube.com/watch?v=ABC&t=5") = ("ABC") := by decide

example : extractVideoId ("https://youtu.be/ABC?t=5") = ("ABC") := by decide

example : extractVideoId ("https://x/watch?v=ABC&t=5") = ("https://x/watch?v=ABC&t=5") := by decide

/-! ### Quick sanity examples (fetcher) -/

def genFailRunner : Nat → InvokeBehavior := fun _ => .ok 1 "x" "y"

example :
    download_video ("ABC") [] 3 none none genFailRunner =
      ⟨some (.error (.retriesExhausted 3) (some ("xy"))), [.primary, .primary, .fallback, .primary], 2⟩ := by
  decide

example :
    download_video ("ABC") [("ABC.mp4")] 3 none none genFailRunner =
      ⟨some .already_exists, [], 0⟩ := by
  decide

example :
    (download_video ("ABC") [] 3 none none (fun _ => .ok 1 "" botMarker)).result =
      some (.error .authRequired (some botMarker)) := by
  decide

example :
    download_video ("ABC") [] 3 none none (fun _ => .ok 1 unavailMarker "") =
      ⟨some (.error .unavailable (some unavailMarker)), [.primary], 0⟩ := by
  decide

/-! ### Quick sanity examples (ledger / scheduler / driver) -/

example : read_downloaded_urls none = [] := by decide

example : read_downloaded_urls (some [(" a"), (""), ("b")]) = [("a"), ("b")] := by decide

example :
    download_batch [("u1"), ("u2")] [("u2")] (fun _ => .success) =
      ⟨[("u1")], some []⟩ := by
  decide

example :
    download_batch [("u1")] [("u1")] (fun _ => .success) = ⟨[], none⟩ := by
  decide

example :
    run_driver_events [("u")] 50 (fun _ => 60) =
      [.processChunk [("u")], .sleep 60] := by
  decide

example :
    driver_chunks 2 [1, 2, 3, 4, 5] = [[1, 2], [3, 4], [5]] := by
  decide

example :
    specChunks 2 [1, 2, 3, 4, 5] = [[1, 2], [3, 4], [5]] := by
  rw [specChunks, specChunks, specChunks, specChunks]
  simp

/-! ## Claim C2 — Identifier Normalizer test vectors -/

/-- C2 is refuted at its first test vector: the host in
`"https://x/watch?v=ABC&t=5"` is not `youtube.com`, so the string contains
neither URL marker of the code and `extract_video_id_from_url` returns it
unchanged instead of `"ABC"`. -/
theorem claim_C2_counterexample :
    extractVideoId ("https://x/watch?v=ABC&t=5") = ("https://x/watch?v=ABC&t=5") ∧
    ¬ extractVideoId ("https://x/watch?v=ABC&t=5") = ("ABC") := by
  decide

/-- C2 (amended): with the long-form vector written with its actual host, the
three Identifier Normalizer test vectors hold:
`normalize("https://www.youtube.com/watch?v=ABC&t=5") = "ABC"`,
`normalize("https://youtu.be/ABC?t=5") = "ABC"`, and `normalize("ABC") = "ABC"`. -/
theorem claim_C2_amended :
    extractVideoId ("https://www.youtube.com/watch?v=ABC&t=5") = ("ABC") ∧
    extractVideoId ("https://youtu.be/ABC?t=5") = ("ABC") ∧
    extractVideoId ("ABC") = ("ABC") := by
  decide

/-! ## Claim C6 — existence short-circuit -/

/-- C6: if a file `<ID>.<ext>` already exists in the output directory for one of
the known container extensions (`mp4`, `mkv`, `webm`), where `ID` is the
normalized reference, `download_video` returns `already_exists` and the external
downloader is never invoked (empty invocation trace, no sleeps). -/
theorem claim_C6_exists_short_circuit (url : String) (files : List String)
    (retry_count : Nat) (cookies_file cookies_from_browser : Option String)
    (runner : Nat → InvokeBehavior)
    (h : existsAlready files (extractVideoId url) = true) :
    download_video url files retry_count cookies_file cookies_from_browser runner =
      ⟨some .already_exists, [], 0⟩ := by
  simp [download_video, h]

/-- C6 witness: with `ABC.mp4` pre-existing, fetching `"ABC"` short-circuits. -/
theorem claim_C6_witness :
    existsAlready [("ABC.mp4")] (extractVideoId ("ABC")) = true ∧
    download_video ("ABC") [("ABC.mp4")] 3 none none genFailRunner =
      ⟨some .already_exists, [], 0⟩ :=
  ⟨by decide,
    claim_C6_exists_short_circuit ("ABC") [("ABC.mp4")] 3 none none genFailRunner (by decide)⟩

/-! ## Claim C8 — Progress Ledger loading -/

/-- C8 is refuted on a file whose single line is `" a"`: that line is non-blank,
yet the loaded set does not contain it — the code stores the stripped form `"a"`
instead. -/
theorem claim_C8_counterexample :
    ¬ pyStrip (" a") = ("") ∧
    ¬ (" a") ∈ read_downloaded_urls (some [(" a")]) ∧
    read_downloaded_urls (some [(" a")]) = [("a")] := by
  decide

/-- C8 (amended): loading the ledger from a nonexistent path yields the empty
set rather than an error, and loading an existing ledger yields the set of the
stripped forms of its non-blank lines (leading/trailing whitespace removed). -/
theorem claim_C8_amended :
    read_downloaded_urls none = [] ∧
    ∀ (lines : List String) (x : String),
      x ∈ read_downloaded_urls (some lines) ↔
        ∃ line ∈ lines, ¬ pyStrip line = ("") ∧ x = pyStrip line := by
  refine ⟨rfl, fun lines x => ?_⟩
  simp only [read_downloaded_urls, List.mem_filter, List.mem_map, decide_eq_true_eq]
  constructor
  · rintro ⟨⟨line, hline, rfl⟩, hne⟩
    exact ⟨line, hline, hne, rfl⟩
  · rintro ⟨line, hline, hne, rfl⟩
    exact ⟨⟨line, hline, rfl⟩, hne⟩

/-- C8 witness: the amended characterization at a concrete ledger file. -/
theorem claim_C8_amended_witness :
    read_downloaded_urls none = [] ∧
    (("a") ∈ read_downloaded_urls (some [(" a")]) ↔
      ∃ line ∈ [(" a")], ¬ pyStrip line = ("") ∧ ("a") = pyStrip line) :=
  ⟨claim_C8_amended.1, claim_C8_amended.2 [(" a")] ("a")⟩

/-! ## Helper lemmas on the retry loop -/

/-- With truthy authentication material supplied, no iteration of the retry loop
can produce the authentication-required error: that branch (line 84) is guarded
by the absence of credentials (line 83). -/
theorem attemptLoop_ne_authRequired (cookies_file cookies_from_browser : Option String)
    (retry_count : Nat) (runner : Nat → InvokeBehavior)
    (hauth : (truthy cookies_file || truthy cookies_from_browser) = true) :
    ∀ (fuel attempt inv : Nat) (d : Option String),
      ¬ (attemptLoop cookies_file cookies_from_browser retry_count runner
            fuel attempt inv).result = some (.error .authRequired d) := by
  intro fuel
  induction fuel with
  | zero =>
    intro attempt inv d h
    simp [attemptLoop] at h
  | succ f ih =>
    intro attempt inv d h
    simp only [attemptLoop] at h
    cases hr : runner inv with
    | exc e =>
      simp only [hr] at h
      split at h
      · exact ih (attempt + 1) (inv + 1) d h
      · simp at h
    | ok rc out err =>
      simp only [hr] at h
      split at h
      · split at h
        · rename_i hcond
          rw [hauth] at hcond
          simp at hcond
        · split at h
          · simp at h
          · split at h
            · cases hr2 : runner (inv + 1) with
              | exc e2 =>
                simp only [hr2] at h
                split at h
                · exact ih (attempt + 1) (inv + 2) d h
                · simp at h
              | ok rc2 out2 err2 =>
                simp only [hr2] at h
                split at h
                · simp at h
                · split at h
                  · exact ih (attempt + 1) (inv + 2) d h
                  · simp at h
            · split at h
              · exact ih (attempt + 1) (inv + 1) d h
              · simp at h
      · simp at h

/-- With at least one remaining iteration, the retry loop always returns a
tagged outcome: the invariant `retry_count ≤ attempt + fuel` guarantees the
`for` loop can only be exhausted through an explicit `return`. -/
theorem attemptLoop_result_isSome (cookies_file cookies_from_browser : Option String)
    (retry_count : Nat) (runner : Nat → InvokeBehavior) :
    ∀ (fuel attempt inv : Nat), 0 < fuel → retry_count ≤ attempt + fuel →
      ((attemptLoop cookies_file cookies_from_browser retry_count runner
          fuel attempt inv).result).isSome = true := by
  intro fuel
  induction fuel with
  | zero =>
    intro attempt inv h0 _
    exact (Nat.lt_irrefl 0 h0).elim
  | succ f ih =>
    intro attempt inv _ hle
    simp only [attemptLoop]
    cases hr : runner inv with
    | exc e =>
      dsimp only
      split
      · rename_i hlt
        exact ih (attempt + 1) (inv + 1) (by omega) (by omega)
      · rfl
    | ok rc out err =>
      dsimp only
      split
      · split
        · rfl
        · split
          · rfl
          · split
            · cases hr2 : runner (inv + 1) with
              | exc e2 =>
                dsimp only
                split
                · rename_i hlt
                  exact ih (attempt + 1) (inv + 2) (by omega) (by omega)
                · rfl
              | ok rc2 out2 err2 =>
                dsimp only
                split
                · rfl
                · split
                  · rename_i hlt
                    exact ih (attempt + 1) (inv + 2) (by omega) (by omega)
                  · rfl
            · split
              · rename_i hlt
                exact ih (attempt + 1) (inv + 1) (by omega) (by omega)
              · rfl
      · rfl

/-! ## Claim C4 — bot-verification challenge handling -/

/-- C4: whenever an invocation fails and its combined output contains the
bot-verification challenge string while no authentication material is supplied,
the fetch returns the authentication-required error immediately — the loop
iteration makes that one invocation and stops, with no further attempts and no
backoff sleep, whatever the attempt index and remaining retries (first
conjunct: any iteration; second conjunct: the whole fetch when it is the first
invocation) — and when authentication material is supplied the
authentication-required branch is never taken, whatever the runner does. -/
theorem claim_C4_bot_check :
    (∀ (fuel attempt inv retry_count : Nat)
        (cookies_file cookies_from_browser : Option String)
        (runner : Nat → InvokeBehavior) (rc : Int) (out err : String),
      runner inv = .ok rc out err →
      rc ≠ 0 →
      (strIn botMarker err || strIn botMarker out) = true →
      (truthy cookies_file || truthy cookies_from_browser) = false →
      attemptLoop cookies_file cookies_from_browser retry_count runner
          (fuel + 1) attempt inv =
        ⟨some (.error .authRequired (some err)), [.primary], 0⟩)
    ∧
    (∀ (url : String) (files : List String) (retry_count : Nat)
        (cookies_file cookies_from_browser : Option String)
        (runner : Nat → InvokeBehavior) (rc : Int) (out err : String),
      1 ≤ retry_count →
      existsAlready files (extractVideoId url) = false →
      runner 0 = .ok rc out err →
      rc ≠ 0 →
      (strIn botMarker err || strIn botMarker out) = true →
      (truthy cookies_file || truthy cookies_from_browser) = false →
      download_video url files retry_count cookies_file cookies_from_browser runner =
        ⟨some (.error .authRequired (some err)), [.primary], 0⟩)
    ∧
    (∀ (url : String) (files : List String) (retry_count : Nat)
        (cookies_file cookies_from_browser : Option String)
        (runner : Nat → InvokeBehavior) (d : Option String),
      (truthy cookies_file || truthy cookies_from_browser) = true →
      ¬ (download_video url files retry_count cookies_file cookies_from_browser
          runner).result = some (.error .authRequired d)) := by
  refine ⟨?_, ?_, ?_⟩
  · intro fuel attempt inv retry_count cookies_file cookies_from_browser runner rc out err
      hrun hrc hbot hauth
    simp only [attemptLoop, hrun]
    rw [if_pos hrc, hbot, hauth]
    simp
  · intro url files retry_count cookies_file cookies_from_browser runner rc out err
      h1 hex hrun hrc hbot hauth
    obtain ⟨m, rfl⟩ : ∃ m, retry_count = m + 1 := ⟨retry_count - 1, by omega⟩
    simp only [download_video, hex, reduceIte, attemptLoop, hrun]
    rw [if_pos hrc, hbot, hauth]
    simp
  · intro url files retry_count cookies_file cookies_from_browser runner d hauth h
    by_cases hex : existsAlready files (extractVideoId url) = true
    · simp only [download_video, hex, reduceIte] at h
      simp at h
    · have hex' : existsAlready files (extractVideoId url) = false := by
        cases hb : existsAlready files (extractVideoId url) <;> simp_all
      simp only [download_video, hex', reduceIte] at h
      exact attemptLoop_ne_authRequired cookies_file cookies_from_browser retry_count runner
        hauth retry_count 0 0 d h

/-- C4 witness: a bot-challenge failure without credentials yields the
authentication error after one invocation; with a cookie file supplied the
authentication branch is not taken. -/
theorem claim_C4_witness :
    attemptLoop none none 3 (fun _ => .ok 1 "" botMarker) 2 1 1 =
      ⟨some (.error .authRequired (some botMarker)), [.primary], 0⟩ ∧
    download_video ("ABC") [] 3 none none (fun _ => .ok 1 "" botMarker) =
      ⟨some (.error .authRequired (some botMarker)), [.primary], 0⟩ ∧
    ¬ (download_video ("ABC") [] 3 (some ("cookies.txt")) none
        (fun _ => .ok 1 "" botMarker)).result = some (.error .authRequired (some botMarker)) :=
  ⟨claim_C4_bot_check.1 1 1 1 3 none none (fun _ => .ok 1 "" botMarker) 1 ("") botMarker
      rfl (by decide) (by decide) rfl,
    claim_C4_bot_check.2.1 ("ABC") [] 3 none none (fun _ => .ok 1 "" botMarker) 1 ("") botMarker
      (by decide) (by decide) rfl (by decide) (by decide) rfl,
    claim_C4_bot_check.2.2 ("ABC") [] 3 (some ("cookies.txt")) none (fun _ => .ok 1 "" botMarker)
      (some botMarker) (by decide)⟩

/-! ## Claim C5 — unavailable marker handling -/

/-- C5 is refuted when the failing invocation's output contains both the
bot-verification string and the unavailable marker and no authentication
material was supplied: the bot check at line 82 runs first, so the fetch
returns the authentication error, not `Unavailable`. -/
theorem claim_C5_counterexample :
    strIn unavailMarker (botMarker ++ (" ") ++ unavailMarker) = true ∧
    (download_video ("ABC") [] 3 none none
        (fun _ => .ok 1 (botMarker ++ (" ") ++ unavailMarker) "")).result =
      some (.error .authRequired (some (""))) ∧
    ¬ (download_video ("ABC") [] 3 none none
        (fun _ => .ok 1 (botMarker ++ (" ") ++ unavailMarker) "")).result =
      some (.error .unavailable (some (botMarker ++ (" ") ++ unavailMarker ++ ("")))) := by
  decide

/-- C5 (amended): if the first invocation fails with the unavailable marker in
its output, and the earlier bot-verification branch does not fire (the output
lacks the bot-challenge string, or authentication material was supplied), the
fetch returns the unavailable error after exactly one invocation, with no
retries and no backoff sleep. -/
theorem claim_C5_amended (url : String) (files : List String) (retry_count : Nat)
    (cookies_file cookies_from_browser : Option String)
    (runner : Nat → InvokeBehavior) (rc : Int) (out err : String)
    (h1 : 1 ≤ retry_count)
    (hex : existsAlready files (extractVideoId url) = false)
    (hrun : runner 0 = .ok rc out err)
    (hrc : rc ≠ 0)
    (hunav : (strIn unavailMarker out || strIn unavailMarker err) = true)
    (hbot : ((strIn botMarker err || strIn botMarker out)
        && !(truthy cookies_file || truthy cookies_from_browser)) = false) :
    download_video url files retry_count cookies_file cookies_from_browser runner =
      ⟨some (.error .unavailable (some (out ++ err))), [.primary], 0⟩ := by
  obtain ⟨m, rfl⟩ : ∃ m, retry_count = m + 1 := ⟨retry_count - 1, by omega⟩
  simp only [download_video, hex, reduceIte, attemptLoop, hrun]
  rw [if_pos hrc, hbot, hunav]
  simp

/-- C5 witness: an unavailable-marker failure returns the unavailable error
after a single invocation. -/
theorem claim_C5_witness :
    download_video ("ABC") [] 3 none none (fun _ => .ok 1 unavailMarker "") =
      ⟨some (.error .unavailable (some (unavailMarker ++ ("")))), [.primary], 0⟩ :=
  claim_C5_amended ("ABC") [] 3 none none (fun _ => .ok 1 unavailMarker "") 1 unavailMarker ("")
    (by decide) (by decide) rfl (by decide) (by decide) (by decide)

/-! ## Claim C1 — retry exhaustion -/

/-- C1 is refuted on the invocation count: with retry limit 3 and an
always-failing generic invocation, the external downloader is spawned 4 times
(three primary-format attempts plus the interleaved fallback-format attempt),
not 3. -/
theorem claim_C1_counterexample :
    (download_video ("ABC") [] 3 none none genFailRunner).formats.length = 4 ∧
    ¬ (download_video ("ABC") [] 3 none none genFailRunner).formats.length = 3 := by
  decide

/-- C1 (amended): for a fetch whose invocations always fail with a generic
error (nonzero exit, neither bot-check nor unavailable marker in the output),
with retry limit 3, the downloader is invoked exactly 4 times in total — the
primary-format attempt of each of the 3 loop iterations, plus the
fallback-format attempt interleaved at attempt index 1 — there are 2 backoff
sleeps, and the fetch returns the retries-exhausted error carrying the last
captured tool output (that of the 4th invocation). -/
theorem claim_C1_amended (url : String) (files : List String)
    (rc : Nat → Int) (out err : Nat → String)
    (hex : existsAlready files (extractVideoId url) = false)
    (hrc : ∀ n, rc n ≠ 0)
    (hbo : ∀ n, strIn botMarker (out n) = false)
    (hbe : ∀ n, strIn botMarker (err n) = false)
    (huo : ∀ n, strIn unavailMarker (out n) = false)
    (hue : ∀ n, strIn unavailMarker (err n) = false) :
    download_video url files 3 none none
        (fun n => InvokeBehavior.ok (rc n) (out n) (err n)) =
      ⟨some (.error (.retriesExhausted 3) (some (out 3 ++ err 3))),
        [.primary, .primary, .fallback, .primary], 2⟩ := by
  simp only [download_video, hex, reduceIte]
  simp [attemptLoop, hrc, hbo, hbe, huo, hue, truthy]

/-- C1 witness: the amended count at a concrete always-failing runner. -/
theorem claim_C1_witness :
    existsAlready [] (extractVideoId ("ABC")) = false ∧
    download_video ("ABC") [] 3 none none genFailRunner =
      ⟨some (.error (.retriesExhausted 3) (some (("x") ++ ("y")))),
        [.primary, .primary, .fallback, .primary], 2⟩ :=
  ⟨by decide,
    claim_C1_amended ("ABC") [] (fun _ => 1) (fun _ => ("x")) (fun _ => ("y"))
      (by decide)
      (fun _ => show (1 : Int) ≠ 0 by decide)
      (fun _ => show strIn botMarker ("x") = false by decide)
      (fun _ => show strIn botMarker ("y") = false by decide)
      (fun _ => show strIn unavailMarker ("x") = false by decide)
      (fun _ => show strIn unavailMarker ("y") = false by decide)⟩

/-! ## Claim C9 — retry limit 0 returns an untagged result -/

/-- C9: with retry limit 0 and no pre-existing output file for the normalized
ID, `download_video` falls off the end of the retry loop and returns Python
`None` (modelled as `none`) rather than a tagged outcome; with retry limit at
least 1 a tagged outcome is guaranteed. -/
theorem claim_C9_retry_zero_untagged :
    (∀ (url : String) (files : List String) (cookies_file cookies_from_browser : Option String)
        (runner : Nat → InvokeBehavior),
      existsAlready files (extractVideoId url) = false →
      (download_video url files 0 cookies_file cookies_from_browser runner).result = none)
    ∧
    (∀ (url : String) (files : List String) (retry_count : Nat)
        (cookies_file cookies_from_browser : Option String) (runner : Nat → InvokeBehavior),
      1 ≤ retry_count →
      ((download_video url files retry_count cookies_file cookies_from_browser
          runner).result).isSome = true) := by
  constructor
  · intro url files cookies_file cookies_from_browser runner hex
    simp only [download_video, hex, reduceIte, attemptLoop]
    simp
  · intro url files retry_count cookies_file cookies_from_browser runner h1
    by_cases hex : existsAlready files (extractVideoId url) = true
    · simp only [download_video, hex, reduceIte]
      rfl
    · have hex' : existsAlready files (extractVideoId url) = false := by
        cases hb : existsAlready files (extractVideoId url) <;> simp_all
      simp only [download_video, hex', reduceIte]
      exact attemptLoop_result_isSome cookies_file cookies_from_browser retry_count runner
        retry_count 0 0 (by omega) (by omega)

/-- C9 witness: retry limit 0 yields `none`; retry limit 3 yields a tagged
outcome. -/
theorem claim_C9_witness :
    (download_video ("ABC") [] 0 none none genFailRunner).result = none ∧
    ((download_video ("ABC") [] 3 none none genFailRunner).result).isSome = true :=
  ⟨claim_C9_retry_zero_untagged.1 ("ABC") [] none none genFailRunner (by decide),
    claim_C9_retry_zero_untagged.2 ("ABC") [] 3 none none genFailRunner (by decide)⟩

/-! ## Helper lemmas on the driver loop -/

theorem total_batches_zero (batch_size : Nat) (hbs : 0 < batch_size) :
    total_batches 0 batch_size = 0 := by
  unfold total_batches
  exact Nat.div_eq_of_lt (by omega)

theorem total_batches_succ (batch_size n : Nat) (hbs : 0 < batch_size) (hn : 0 < n) :
    total_batches n batch_size = total_batches (n - batch_size) batch_size + 1 := by
  unfold total_batches
  rcases le_or_lt n batch_size with h | h
  · have h1 : n - batch_size = 0 := by omega
    rw [h1]
    have h2 : (0 + batch_size - 1) / batch_size = 0 := Nat.div_eq_of_lt (by omega)
    rw [h2]
    exact Nat.div_eq_of_lt_le (by omega) (by omega)
  · have h3 : n + batch_size - 1 = (n - batch_size + batch_size - 1) + batch_size := by omega
    rw [h3, Nat.add_div_right _ hbs]

theorem total_batches_pos (batch_size : Nat) (hbs : 0 < batch_size) (l : List α)
    (hl : l ≠ []) : 0 < total_batches l.length batch_size := by
  have hn : 0 < l.length := List.length_pos.mpr hl
  unfold total_batches
  exact (Nat.one_le_div_iff hbs).mpr (by omega)

theorem sliceChunk_zero (batch_size : Nat) (l : List α) :
    sliceChunk batch_size l 0 = l.take batch_size := by
  unfold sliceChunk
  simp only [Nat.zero_mul, List.drop_zero, Nat.sub_zero, Nat.zero_add, Nat.one_mul]
  rcases le_or_lt batch_size l.length with h | h
  · rw [min_eq_left h]
  · rw [min_eq_right (le_of_lt h), List.take_length, List.take_of_length_le (le_of_lt h)]

theorem sliceChunk_succ (batch_size : Nat) (l : List α) (b : Nat) :
    sliceChunk batch_size l (b + 1) = sliceChunk batch_size (l.drop batch_size) b := by
  unfold sliceChunk
  rw [List.length_drop]
  have hd : (l.drop batch_size).drop (b * batch_size) = l.drop (batch_size + b * batch_size) :=
    List.drop_drop (b * batch_size) batch_size l
  have h1 : (b + 1) * batch_size = batch_size + b * batch_size := by ring
  have h2 : (b + 1 + 1) * batch_size = b * batch_size + batch_size + batch_size := by ring
  rw [h1, h2, hd]
  congr 1
  generalize b * batch_size = x
  omega

theorem driver_chunks_nil (batch_size : Nat) (hbs : 0 < batch_size) :
    driver_chunks batch_size ([] : List α) = [] := by
  unfold driver_chunks
  rw [List.length_nil, total_batches_zero batch_size hbs]
  rfl

theorem driver_chunks_cons (batch_size : Nat) (hbs : 0 < batch_size) (l : List α)
    (hl : l ≠ []) :
    driver_chunks batch_size l =
      l.take batch_size :: driver_chunks batch_size (l.drop batch_size) := by
  unfold driver_chunks
  have hn : 0 < l.length := List.length_pos.mpr hl
  rw [List.length_drop, total_batches_succ batch_size l.length hbs hn,
    List.range_succ_eq_map, List.map_cons, List.map_map]
  congr 1
  · exact sliceChunk_zero batch_size l
  · refine List.map_congr_left fun b _ => ?_
    simp only [Function.comp_apply, Nat.succ_eq_add_one]
    rw [sliceChunk_succ]

/-- The driver's index-arithmetic slicing (lines 246–250) computes exactly the
spec's partition of the work list into consecutive fixed-size chunks in
original order. -/
theorem driver_chunks_eq_specChunks (batch_size : Nat) (hbs : 0 < batch_size) :
    ∀ (n : Nat) (l : List α), l.length ≤ n →
      driver_chunks batch_size l = specChunks batch_size l := by
  intro n
  induction n with
  | zero =>
    intro l hl
    have hnil : l = [] := by
      cases l with
      | nil => rfl
      | cons a t => simp at hl
    subst hnil
    rw [driver_chunks_nil batch_size hbs, specChunks]
    simp
  | succ k ih =>
    intro l hl
    by_cases hnil : l = []
    · subst hnil
      rw [driver_chunks_nil batch_size hbs, specChunks]
      simp
    · rw [driver_chunks_cons batch_size hbs l hnil, specChunks,
        dif_neg (by simp [hnil]; omega)]
      congr 1
      refine ih (l.drop batch_size) ?_
      have : 0 < l.length := List.length_pos.mpr hnil
      rw [List.length_drop]
      omega

theorem events_filterMap_chunks (f : Nat → List String) (r : Nat → Nat) :
    ∀ n : Nat,
      (((List.range n).map fun b =>
          [RunEvent.processChunk (f b), RunEvent.sleep (r b)]).flatten).filterMap chunkEvent =
        (List.range n).map f := by
  intro n
  induction n with
  | zero => rfl
  | succ k ih =>
    rw [List.range_succ]
    simp only [List.map_append, List.flatten_append, List.filterMap_append, ih]
    simp [chunkEvent]

theorem events_filterMap_sleeps (f : Nat → List String) (r : Nat → Nat) :
    ∀ n : Nat,
      (((List.range n).map fun b =>
          [RunEvent.processChunk (f b), RunEvent.sleep (r b)]).flatten).filterMap sleepEvent =
        (List.range n).map r := by
  intro n
  induction n with
  | zero => rfl
  | succ k ih =>
    rw [List.range_succ]
    simp only [List.map_append, List.flatten_append, List.filterMap_append, ih]
    simp [sleepEvent]

theorem events_getLast (f : Nat → List String) (r : Nat → Nat) (n : Nat) (hn : 0 < n) :
    (((List.range n).map fun b =>
        [RunEvent.processChunk (f b), RunEvent.sleep (r b)]).flatten).getLast? =
      some (RunEvent.sleep (r (n - 1))) := by
  obtain ⟨k, rfl⟩ : ∃ k, n = k + 1 := ⟨n - 1, by omega⟩
  rw [List.range_succ]
  simp [List.getLast?_append]

/-! ## Claim C3 — inter-chunk pacing -/

/-- C3 is refuted at a single-chunk run: the code sleeps after every chunk,
including the final one (the `time.sleep` at line 260 is inside the batch loop,
unconditionally), and `random.randint(5, 60)` can draw 60, which is outside
the claimed half-open interval `[5,60)`. -/
theorem claim_C3_counterexample :
    run_driver_events [("u")] 50 (fun _ => 60) =
      [.processChunk [("u")], .sleep 60] ∧
    (run_driver_events [("u")] 50 (fun _ => 60)).getLast? = some (.sleep 60) := by
  decide

/-- C3 (amended): the Run Driver processes the chunks strictly in their list
order — the chunk-processing events are exactly the spec's fixed-size partition
of the work list, in order — and after every chunk, including the final one, it
pauses for a random integer duration in the closed interval `[5,60]` seconds
(`random.randint` is inclusive on both ends): every chunk event is followed by
its sleep event, the trace of a nonempty run ends with a sleep, and under the
`randint` bounds every sleep duration lies in `[5,60]`. -/
theorem claim_C3_amended (l : List String) (batch_size : Nat) (rand : Nat → Nat)
    (hbs : 0 < batch_size) (hr : ∀ b, 5 ≤ rand b ∧ rand b ≤ 60) :
    (run_driver_events l batch_size rand).filterMap chunkEvent = specChunks batch_size l ∧
    (run_driver_events l batch_size rand).filterMap sleepEvent =
      (List.range (total_batches l.length batch_size)).map rand ∧
    run_driver_events l batch_size rand =
      ((List.range (total_batches l.length batch_size)).map fun b =>
        [RunEvent.processChunk (sliceChunk batch_size l b), RunEvent.sleep (rand b)]).flatten ∧
    (l ≠ [] → (run_driver_events l batch_size rand).getLast? =
      some (.sleep (rand (total_batches l.length batch_size - 1)))) ∧
    (∀ d, RunEvent.sleep d ∈ run_driver_events l batch_size rand → 5 ≤ d ∧ d ≤ 60) := by
  refine ⟨?_, ?_, rfl, ?_, ?_⟩
  · rw [run_driver_events, events_filterMap_chunks]
    exact driver_chunks_eq_specChunks batch_size hbs l.length l le_rfl
  · rw [run_driver_events, events_filterMap_sleeps]
  · intro hnil
    rw [run_driver_events]
    exact events_getLast _ rand _ (total_batches_pos batch_size hbs l hnil)
  · intro d hd
    have hmem : d ∈ (run_driver_events l batch_size rand).filterMap sleepEvent :=
      List.mem_filterMap.mpr ⟨.sleep d, hd, rfl⟩
    rw [run_driver_events, events_filterMap_sleeps] at hmem
    obtain ⟨b, _, hb⟩ := List.mem_map.mp hmem
    exact hb ▸ hr b

/-- C3 witness: the amended pacing statement at a concrete two-chunk run. -/
theorem claim_C3_witness :
    0 < 2 ∧
    ((run_driver_events [("a"), ("b"), ("c")] 2 (fun _ => 7)).filterMap chunkEvent =
        specChunks 2 [("a"), ("b"), ("c")] ∧
      (run_driver_events [("a"), ("b"), ("c")] 2 (fun _ => 7)).filterMap sleepEvent =
        (List.range (total_batches 3 2)).map (fun _ => 7) ∧
      run_driver_events [("a"), ("b"), ("c")] 2 (fun _ => 7) =
        ((List.range (total_batches 3 2)).map fun b =>
          [RunEvent.processChunk (sliceChunk 2 [("a"), ("b"), ("c")] b),
            RunEvent.sleep 7]).flatten ∧
      ([("a"), ("b"), ("c")] ≠ ([] : List String) →
        (run_driver_events [("a"), ("b"), ("c")] 2 (fun _ => 7)).getLast? =
          some (.sleep 7)) ∧
      (∀ d, RunEvent.sleep d ∈ run_driver_events [("a"), ("b"), ("c")] 2 (fun _ => 7) →
        5 ≤ d ∧ d ≤ 60)) :=
  ⟨by decide,
    claim_C3_amended [("a"), ("b"), ("c")] 2 (fun _ => 7) (by decide)
      (fun b => show (5 : Nat) ≤ 7 ∧ (7 : Nat) ≤ 60 by decide)⟩

/-! ## Claim C7 — chunk partitioning -/

/-- C7: the driver partitions the ledger-filtered work list into fixed-size
chunks preserving the original order; with 120 remaining references and chunk
size 50 there are exactly 3 chunks, of sizes 50, 50 and 20, which concatenate
back to the input list, and the event trace processes them strictly in that
order. -/
theorem claim_C7_chunking (l : List String) (rand : Nat → Nat) (hl : l.length = 120) :
    driver_chunks 50 l = [l.take 50, (l.drop 50).take 50, l.drop 100] ∧
    (driver_chunks 50 l).map List.length = [50, 50, 20] ∧
    (driver_chunks 50 l).flatten = l ∧
    run_driver_events l 50 rand =
      [.processChunk (l.take 50), .sleep (rand 0),
        .processChunk ((l.drop 50).take 50), .sleep (rand 1),
        .processChunk (l.drop 100), .sleep (rand 2)] := by
  have htb : total_batches l.length 50 = 3 := by
    rw [hl]
    decide
  have hr3 : List.range 3 = [0, 1, 2] := by decide
  have hc0 : sliceChunk 50 l 0 = l.take 50 := sliceChunk_zero 50 l
  have hc1 : sliceChunk 50 l 1 = (l.drop 50).take 50 := by
    unfold sliceChunk
    rw [hl]
    norm_num
  have hc2 : sliceChunk 50 l 2 = l.drop 100 := by
    unfold sliceChunk
    rw [hl]
    norm_num
    omega
  have hflat : l.take 50 ++ ((l.drop 50).take 50 ++ l.drop 100) = l := by
    have hd : (l.drop 50).drop 50 = l.drop 100 := List.drop_drop 50 50 l
    rw [← hd, List.take_append_drop, List.take_append_drop]
  refine ⟨?_, ?_, ?_, ?_⟩
  · rw [driver_chunks, htb, hr3]
    simp only [List.map_cons, List.map_nil, hc0, hc1, hc2]
  · rw [driver_chunks, htb, hr3]
    simp only [List.map_cons, List.map_nil, hc0, hc1, hc2, List.length_take,
      List.length_drop, hl]
    norm_num
  · rw [driver_chunks, htb, hr3]
    simp only [List.map_cons, List.map_nil, hc0, hc1, hc2, List.flatten_cons,
      List.flatten_nil, List.append_nil]
    exact hflat
  · rw [run_driver_events, htb, hr3]
    simp only [List.map_cons, List.map_nil, hc0, hc1, hc2, List.flatten_cons,
      List.flatten_nil, List.append_nil]
    rfl

/-- C7 witness: the chunk shape at a concrete 120-element list. -/
theorem claim_C7_witness :
    (List.replicate 120 ("u")).length = 120 ∧
    driver_chunks 50 (List.replicate 120 ("u")) =
      [(List.replicate 120 ("u")).take 50, ((List.replicate 120 ("u")).drop 50).take 50,
        (List.replicate 120 ("u")).drop 100] :=
  ⟨by simp,
    (claim_C7_chunking (List.replicate 120 ("u")) (fun _ => 5) (by simp)).1⟩

/-! ## Claim C10 — failure-file frame effect of the Batch Scheduler -/

/-- C10: when every reference of a chunk is filtered out as already ledgered (or
the chunk is empty), `download_batch` returns at line 171 without touching the
failure file, so a failure file left by a previous chunk survives unchanged; when
at least one reference is actually attempted, the failure file is rewritten
(with exactly that chunk's failure records). -/
theorem claim_C10_failure_file_frame (urls downloaded : List String)
    (fetch : String → DlStatus) (prev : Option (List (String × String))) :
    ((urls.filter fun u => !(downloaded.contains u)) = [] →
      (download_batch urls downloaded fetch).failed = none ∧
      applyFailureWrite prev (download_batch urls downloaded fetch) = prev)
    ∧
    (¬ (urls.filter fun u => !(downloaded.contains u)) = [] →
      ∃ recs, (download_batch urls downloaded fetch).failed = some recs ∧
        applyFailureWrite prev (download_batch urls downloaded fetch) = some recs) := by
  constructor
  · intro h
    have hE : (urls.filter fun u => !(downloaded.contains u)).isEmpty = true := by
      rw [h]
      rfl
    simp only [download_batch, applyFailureWrite, hE, reduceIte]
    simp
  · intro h
    have hE : (urls.filter fun u => !(downloaded.contains u)).isEmpty = false := by
      rcases hF : urls.filter (fun u => !(downloaded.contains u)) with _ | ⟨a, t⟩
      · exact absurd hF h
      · rfl
    simp only [download_batch, applyFailureWrite, hE, reduceIte]
    exact ⟨_, rfl, rfl⟩

/-- C10 witness: a fully-filtered chunk leaves a previous failure file in place;
a chunk with one attempted reference overwrites it. -/
theorem claim_C10_witness :
    ((download_batch [("u1")] [("u1")] (fun _ => .success)).failed = none ∧
      applyFailureWrite (some [(("v"), ("e"))])
        (download_batch [("u1")] [("u1")] (fun _ => .success)) = some [(("v"), ("e"))])
    ∧
    (∃ recs, (download_batch [("u1")] [] (fun _ => .success)).failed = some recs ∧
      applyFailureWrite (some [(("v"), ("e"))])
        (download_batch [("u1")] [] (fun _ => .success)) = some recs) :=
  ⟨(claim_C10_failure_file_frame [("u1")] [("u1")] (fun _ => .success)
      (some [(("v"), ("e"))])).1 (by decide),
    (claim_C10_failure_file_frame [("u1")] [] (fun _ => .success)
      (some [(("v"), ("e"))])).2 (by decide)⟩

end Stereo4D
